import Mathlib

/-!
# Verification of the claimbot FNOL frontend core

Shallow embedding of the state-bearing parts of the claimbot repository:
the FNOL session store (fnolStore.ts), the chat store's document-upload
flow (chatStore.ts), the document-type table (DocumentUploadPanel),
the admin flow-settings editor (FlowsPage), the sanitization utilities
(sanitize.ts), and a spec-modelled payout calculation engine (the backend
engine itself is not part of the frontend sources).
-/

namespace Claimbot

/-! ## fnolStore.ts: state list and response/store shapes -/

/-- FNOL state machine states, fnolStore.ts FNOL_STATES. -/
def FNOL_STATES : List String :=
  [ "SAFETY_CHECK"
  , "IDENTITY_MATCH"
  , "INCIDENT_CORE"
  , "LOSS_MODULE"
  , "VEHICLE_DRIVER"
  , "THIRD_PARTIES"
  , "INJURIES"
  , "DAMAGE_EVIDENCE"
  , "TRIAGE"
  , "CLAIM_CREATE"
  , "NEXT_STEPS"
  , "HANDOFF_ESCALATION" ]

/-- States shown in the progress bar (FNOLProgressBar VISIBLE_STATES). -/
def VISIBLE_STATES : List String :=
  [ "SAFETY_CHECK"
  , "IDENTITY_MATCH"
  , "INCIDENT_CORE"
  , "VEHICLE_DRIVER"
  , "THIRD_PARTIES"
  , "INJURIES"
  , "DAMAGE_EVIDENCE"
  , "CLAIM_CREATE"
  , "NEXT_STEPS" ]

/-- The traversal order as the specification words it (all eleven
non-terminal states in order); written from the spec, for comparison
with the source lists above. -/
def claimedTraversalOrder : List String :=
  [ "SAFETY_CHECK"
  , "IDENTITY_MATCH"
  , "INCIDENT_CORE"
  , "LOSS_MODULE"
  , "VEHICLE_DRIVER"
  , "THIRD_PARTIES"
  , "INJURIES"
  , "DAMAGE_EVIDENCE"
  , "TRIAGE"
  , "CLAIM_CREATE"
  , "NEXT_STEPS" ]

/-- InputOption from fnolStore.ts. -/
structure InputOption where
  value : String
  label : String
deriving Repr, DecidableEq

/-- Message from fnolStore.ts. -/
structure Message where
  id : String
  role : String
  content : String
  timestamp : String
deriving Repr, DecidableEq

/-- The progress object of FNOLSessionResponse (services/api.ts). -/
structure FNOLProgress where
  current : String
  completed : List String
  percent : Int
deriving Repr, DecidableEq

/-- FNOLSessionResponse from services/api.ts.  The ui_hints field
(a display-only JSON object never read by the store handlers) is omitted. -/
structure FNOLSessionResponse where
  thread_id : String
  claim_draft_id : String
  current_state : String
  message : String
  needs_input : Bool
  input_type : String
  options : List InputOption
  progress : FNOLProgress
deriving Repr, DecidableEq

/-- FNOLMessageResponse extends FNOLSessionResponse (services/api.ts). -/
structure FNOLMessageResponse extends FNOLSessionResponse where
  validation_errors : List String
  is_complete : Bool
  should_escalate : Bool
  escalation_reason : Option String
deriving Repr, DecidableEq

/-- The data fields of the zustand FNOL store (fnolStore.ts FNOLState).
The summary / showSummary fields, which none of the modelled actions
touch, are carried as opaque display state: summary is the raw summary
response rendered as an association list. -/
structure FNOLStoreState where
  threadId : Option String
  claimDraftId : Option String
  isSessionActive : Bool
  currentState : String
  completedStates : List String
  progressPercent : Int
  messages : List Message
  currentMessage : String
  isLoading : Bool
  error : Option String
  pendingQuestion : Option String
  inputType : String
  inputOptions : List InputOption
  validationErrors : List String
  isComplete : Bool
  shouldEscalate : Bool
  escalationReason : Option String
  showSummary : Bool
deriving Repr, DecidableEq

/-- JS `s || d` on strings: the empty string is falsy. -/
def orDefaultStr (s d : String) : String := if s = "" then d else s

/-- JS `x || null` on an optional string: undefined and "" give null. -/
def orNullStr : Option String → Option String
  | none => none
  | some s => if s = "" then none else some s

/-- Stand-in for new Date(now).toISOString(): a rendering of the
millisecond clock.  Only its dependence on the clock matters to the
properties proved below, not the exact format. -/
def dateToISOString (now : Nat) : String := toString now

/-- fnolStore.ts handleSessionResponse.  Date.now() is the explicit
clock parameter now.  The source fallbacks
(progress?.completed or [], progress?.percent or 0, options or [])
coincide with the plain projections because the response type declares
progress and options present and the JS fallback replaces only falsy
values ([] and 0) by themselves; input_type or 'text' does not, since
the empty string is falsy. -/
def handleSessionResponse (s : FNOLStoreState) (r : FNOLSessionResponse)
    (now : Nat) : FNOLStoreState :=
  let assistantMessage : Message :=
    { id := "assistant-" ++ toString now
      role := "assistant"
      content := r.message
      timestamp := dateToISOString now }
  { s with
    threadId := some r.thread_id
    claimDraftId := some r.claim_draft_id
    isSessionActive := true
    currentState := r.current_state
    completedStates := r.progress.completed
    progressPercent := r.progress.percent
    messages := [assistantMessage]
    inputType := orDefaultStr r.input_type "text"
    inputOptions := r.options
    isLoading := false }

/-- fnolStore.ts handleMessageResponse. -/
def handleMessageResponse (s : FNOLStoreState) (r : FNOLMessageResponse)
    (now : Nat) : FNOLStoreState :=
  let assistantMessage : Message :=
    { id := "assistant-" ++ toString now
      role := "assistant"
      content := r.message
      timestamp := dateToISOString now }
  { s with
    messages := s.messages ++ [assistantMessage]
    currentState := r.current_state
    completedStates := r.progress.completed
    progressPercent := r.progress.percent
    inputType := orDefaultStr r.input_type "text"
    inputOptions := r.options
    validationErrors := r.validation_errors
    isComplete := r.is_complete
    shouldEscalate := r.should_escalate
    escalationReason := orNullStr r.escalation_reason
    isLoading := false }

/-- fnolStore.ts resumeSession, success path: set isLoading / clear
error, call the resume API (its response is the parameter r), then
handleSessionResponse. -/
def resumeSessionOk (s : FNOLStoreState) (r : FNOLSessionResponse)
    (now : Nat) : FNOLStoreState :=
  handleSessionResponse { s with isLoading := true, error := none } r now

/-- fnolStore.ts sendMessage, success path: append the user message
(with its own Date.now() reading nowSend), clear the draft text and
validation errors, call the API (response r), then
handleMessageResponse at clock nowRecv. -/
def sendMessageOk (s : FNOLStoreState) (message : String)
    (r : FNOLMessageResponse) (nowSend nowRecv : Nat) : FNOLStoreState :=
  let userMessage : Message :=
    { id := "user-" ++ toString nowSend
      role := "user"
      content := message
      timestamp := dateToISOString nowSend }
  let s1 := { s with
    messages := s.messages ++ [userMessage]
    currentMessage := ""
    isLoading := true
    error := none
    validationErrors := ([] : List String) }
  handleMessageResponse s1 r nowRecv

/-! ## chatStore.ts: guided-flow document upload -/

/-- FlowStage union type from chatStore.ts. -/
inductive FlowStage where
  | product_selection
  | intent_selection
  | claim_form
  | document_upload
  | conversation
deriving Repr, DecidableEq

/-- DocumentItem from chatStore.ts.  The optional extracted_entities
JSON object (display-only) is modelled as the rendered status string. -/
structure DocumentItem where
  doc_id : String
  doc_type : String
  filename : String
  extracted_entities : Option String := none
deriving Repr, DecidableEq

/-- chatStore.ts uploadDocument, success path, restricted to the fields
it updates: append the uploaded document returned by the API and move
flowStage to conversation exactly when the new document list contains
an incident_photos document. -/
def uploadDocumentUpdate (documents : List DocumentItem)
    (flowStage : FlowStage) (response : DocumentItem) :
    List DocumentItem × FlowStage :=
  let newDocuments := documents ++ [response]
  let hasRequired := newDocuments.any (fun doc => doc.doc_type == "incident_photos")
  (newDocuments, if hasRequired then FlowStage.conversation else flowStage)

/-! ## DocumentUploadPanel: document-type table and required-docs check -/

/-- An entry of the DOC_TYPES table in DocumentUploadPanel. -/
structure DocType where
  value : String
  label : String
  required : Bool
  description : String
deriving Repr, DecidableEq

/-- DOC_TYPES from DocumentUploadPanel: incident_photos is required,
the other three types are optional. -/
def DOC_TYPES : List DocType :=
  [ { value := "incident_photos", label := "Incident photos",
      required := true, description := "Required - photos of damage" }
  , { value := "police_report", label := "Police report",
      required := false, description := "Optional - if available" }
  , { value := "repair_estimate", label := "Repair estimate",
      required := false, description := "Optional - for repair claims" }
  , { value := "invoice", label := "Invoice",
      required := false, description := "Optional - if repairs complete" } ]

/-- DocumentUploadPanel isDocTypeUploaded. -/
def isDocTypeUploaded (documents : List DocumentItem) (docType : String) : Bool :=
  documents.any (fun doc => doc.doc_type == docType)

/-- DocumentUploadPanel hasRequiredDocs: every required document type
has been uploaded. -/
def hasRequiredDocs (documents : List DocumentItem) : Bool :=
  (DOC_TYPES.filter (fun t => t.required)).all
    (fun t => isDocTypeUploaded documents t.value)

/-! ## FlowsPage (admin): flow settings editor -/

/-- FlowSettings from FlowsPage. -/
structure FlowSettings where
  confidence_threshold : ℚ
  auto_approval_limit : ℚ
deriving Repr, DecidableEq

/-- The useState initializer for flowSettings in FlowsPage. -/
def defaultFlowSettings : FlowSettings :=
  { confidence_threshold := 7/10, auto_approval_limit := 5000 }

/-- onChange of the Confidence Threshold number input in FlowRulesTab:
the typed text is run through parseFloat (v is the parsed value) and
stored without clamping.  The min=0 / max=1 attributes on the input
element do not constrain values typed into the field. -/
def onConfidenceThresholdChange (s : FlowSettings) (v : ℚ) : FlowSettings :=
  { s with confidence_threshold := v }

/-- onChange of the Auto-Approval Limit number input in FlowRulesTab:
parseInt of the typed text, stored without clamping. -/
def onAutoApprovalLimitChange (s : FlowSettings) (v : ℤ) : FlowSettings :=
  { s with auto_approval_limit := (v : ℚ) }

/-- handleSaveSettings in FlowsPage sends the current flowSettings
state verbatim to adminApi.updateFlowSettings; this is the payload. -/
def handleSaveSettingsPayload (s : FlowSettings) : FlowSettings := s

/-! ## Payout calculation engine (spec-modelled) and CaseDetailPage data -/

/-- An exclusion rule of a policy: a fixed adjustment amount or a
percentage of the remaining amount (spec section 4.4: order affects
percentage-of-remaining exclusions). -/
inductive ExclusionRule where
  | fixedAmount (rule : String) (amount : ℚ)
  | percentOfRemaining (rule : String) (percent : ℚ)
deriving Repr, DecidableEq

/-- One applied exclusion adjustment of a PayoutBreakdown. -/
structure ExclusionAdjustment where
  rule : String
  amount : ℚ
deriving Repr, DecidableEq

/-- PayoutBreakdown, spec section 3. -/
structure PayoutBreakdown where
  gross_loss_amount : ℚ
  deductible_applied : ℚ
  exclusion_adjustments : List ExclusionAdjustment
  net_payout : ℚ
  is_total_loss : Bool
deriving Repr, DecidableEq

/-- Modelled from the spec: the sequential application of exclusion
rules by the Payout Calculation Engine, whose implementation is backend
code not present among the sources (only the backend README is).  Each
rule is applied in the policy's declared order to the remaining amount;
the adjustment of a percentage rule is that percentage of the remaining
amount at its turn.  Returns the final remaining amount and the applied
adjustments in order. -/
def applyExclusions : ℚ → List ExclusionRule → ℚ × List ExclusionAdjustment
  | remaining, [] => (remaining, [])
  | remaining, r :: rs =>
      let adj : ExclusionAdjustment :=
        match r with
        | .fixedAmount name amount => { rule := name, amount := amount }
        | .percentOfRemaining name pct =>
            { rule := name, amount := remaining * pct / 100 }
      let rest := applyExclusions (remaining - adj.amount) rs
      (rest.1, adj :: rest.2)

/-- Modelled from the spec: the Payout Calculation Engine contract
calculate (spec section 4.4), absent from the sources as backend code.
Gross loss is the corroborated estimated-damage figure; the deductible
is subtracted once; exclusions are applied in declared order; the net
payout floors at zero; is_total_loss when gross meets the declared
total-loss threshold (if present) or exceeds the coverage limit. -/
def calculate (gross deductible : ℚ) (rules : List ExclusionRule)
    (totalLossThreshold : Option ℚ) (coverageLimit : ℚ) : PayoutBreakdown :=
  let applied := applyExclusions (gross - deductible) rules
  { gross_loss_amount := gross
    deductible_applied := deductible
    exclusion_adjustments := applied.2
    net_payout := max 0 applied.1
    is_total_loss :=
      (match totalLossThreshold with
       | some t => decide (t ≤ gross)
       | none => false) || decide (coverageLimit < gross) }

/-- The calculation_result figures of the mock case in
CaseDetailPage.tsx: payout_amount 8000, deductible_applied 500, with
collected estimated_damage 8500. -/
def mockEstimatedDamage : ℚ := 8500

/-- CaseDetailPage.tsx mock calculation_result payout_amount. -/
def mockPayoutAmount : ℚ := 8000

/-- CaseDetailPage.tsx mock calculation_result deductible_applied. -/
def mockDeductibleApplied : ℚ := 500

/-! ## sanitize.ts: HTML and URL sanitization -/

/-- The per-character action of sanitize.ts sanitizeHtml: the htmlEntities
table applied to the six characters matched by the global regex, every
other character passed through unchanged. -/
def escapeChar (c : Char) : List Char :=
  if c = '&' then "&amp;".data
  else if c = '<' then "&lt;".data
  else if c = '>' then "&gt;".data
  else if c = '"' then "&quot;".data
  else if c = '\'' then "&#x27;".data
  else if c = '/' then "&#x2F;".data
  else [c]

/-- sanitize.ts sanitizeHtml: input.replace over the single-character
global regex, i.e. the concatenation of escapeChar over the characters. -/
def sanitizeHtml (input : String) : String :=
  String.mk (input.data.flatMap escapeChar)

/-- The characters other than the ampersand that sanitizeHtml escapes;
none of them may survive in its output. -/
def dangerousNonAmp : List Char := ['<', '>', '"', '\'', '/']

/-- The entity bodies that may legitimately follow an ampersand in
sanitized output. -/
def entityTails : List (List Char) :=
  [ "amp;".data, "lt;".data, "gt;".data, "quot;".data, "#x27;".data, "#x2F;".data ]

/-- Every ampersand in the character list starts one of the six HTML
entities produced by sanitizeHtml (no raw ampersand). -/
def ampOk : List Char → Bool
  | [] => true
  | c :: rest =>
      (if c = '&' then entityTails.any (fun t => t.isPrefixOf rest) else true)
        && ampOk rest

/-- The URL object new URL(url) yields, as far as sanitize.ts reads it:
its protocol and href. -/
structure URLParts where
  protocol : String
  href : String
deriving Repr, DecidableEq

/-- sanitize.ts sanitizeUrl.  The platform built-in new URL(url) (not
repository code) is the parameter parseURL, with its throwing behaviour
as the none case, caught by the try/catch and turned into null; an
allowed-protocol parse returns the parsed href, anything else null. -/
def sanitizeUrl (parseURL : String → Option URLParts) (url : String) :
    Option String :=
  match parseURL url with
  | none => none
  | some parsed =>
      if ["http:", "https:"].contains parsed.protocol then some parsed.href
      else none

/-! ## Sample data for concrete evaluations -/

/-- A store state as it stands right after session creation at
SAFETY_CHECK, used for concrete evaluations. -/
def sampleStore : FNOLStoreState :=
  { threadId := some "t-1"
    claimDraftId := some "d-1"
    isSessionActive := true
    currentState := "SAFETY_CHECK"
    completedStates := []
    progressPercent := 0
    messages := []
    currentMessage := ""
    isLoading := false
    error := none
    pendingQuestion := none
    inputType := "yesno"
    inputOptions := [{ value := "yes", label := "Yes" }, { value := "no", label := "No" }]
    validationErrors := []
    isComplete := false
    shouldEscalate := false
    escalationReason := none
    showSummary := false }

/-- A successful advance response reporting fifty percent progress. -/
def sampleResponse50 : FNOLMessageResponse :=
  { thread_id := "t-1"
    claim_draft_id := "d-1"
    current_state := "IDENTITY_MATCH"
    message := "Thanks. Can you confirm your policy holder name?"
    needs_input := true
    input_type := "text"
    options := []
    progress := { current := "IDENTITY_MATCH", completed := ["SAFETY_CHECK"], percent := 50 }
    validation_errors := []
    is_complete := false
    should_escalate := false
    escalation_reason := none }

/-- A later successful advance response reporting twenty-five percent. -/
def sampleResponse25 : FNOLMessageResponse :=
  { thread_id := "t-1"
    claim_draft_id := "d-1"
    current_state := "INCIDENT_CORE"
    message := "When did the incident happen?"
    needs_input := true
    input_type := "date"
    options := []
    progress := { current := "INCIDENT_CORE", completed := ["SAFETY_CHECK", "IDENTITY_MATCH"], percent := 25 }
    validation_errors := []
    is_complete := false
    should_escalate := false
    escalation_reason := none }

/-- A resume-API response for the sample session. -/
def sampleSessionResponse : FNOLSessionResponse :=
  { thread_id := "t-1"
    claim_draft_id := "d-1"
    current_state := "INCIDENT_CORE"
    message := "Welcome back. When did the incident happen?"
    needs_input := true
    input_type := "date"
    options := []
    progress := { current := "INCIDENT_CORE", completed := ["SAFETY_CHECK", "IDENTITY_MATCH"], percent := 18 } }

/-- A response carrying validation errors while also advancing the
state, as nothing in the store rules out. -/
def sampleFailingAdvanceResponse : FNOLMessageResponse :=
  { thread_id := "t-1"
    claim_draft_id := "d-1"
    current_state := "INCIDENT_CORE"
    message := "That is not a yes or no."
    needs_input := true
    input_type := "text"
    options := []
    progress := { current := "INCIDENT_CORE", completed := ["SAFETY_CHECK"], percent := 11 }
    validation_errors := ["Please answer yes or no."]
    is_complete := false
    should_escalate := false
    escalation_reason := none }

/-- A validation-failure response that echoes the prior state of
sampleStore unchanged, as the backend contract prescribes. -/
def sampleEchoResponse : FNOLMessageResponse :=
  { thread_id := "t-1"
    claim_draft_id := "d-1"
    current_state := "SAFETY_CHECK"
    message := "That is not a yes or no."
    needs_input := true
    input_type := "yesno"
    options := [{ value := "yes", label := "Yes" }, { value := "no", label := "No" }]
    progress := { current := "SAFETY_CHECK", completed := [], percent := 0 }
    validation_errors := ["Please answer yes or no."]
    is_complete := false
    should_escalate := false
    escalation_reason := none }

/-! ## Claim C1: progress percentage -/

/-- C1 counterexample: across two successive successful advance updates
(both responses carry no validation errors) the store's progressPercent
falls from 50 to 25 although completedStates grows, and 50 is not
100 * length of completedStates divided by any of the candidate state
totals; so progress_percent is neither monotone nor the stated pure
function of completed_states. -/
theorem progressPercent_invariant_counterexample :
    (sampleResponse50.validation_errors = [] ∧
      sampleResponse25.validation_errors = []) ∧
    (handleMessageResponse sampleStore sampleResponse50 1).progressPercent = 50 ∧
    (handleMessageResponse (handleMessageResponse sampleStore sampleResponse50 1)
        sampleResponse25 2).progressPercent = 25 ∧
    ¬ (handleMessageResponse sampleStore sampleResponse50 1).progressPercent ≤
        (handleMessageResponse (handleMessageResponse sampleStore sampleResponse50 1)
          sampleResponse25 2).progressPercent ∧
    (handleMessageResponse sampleStore sampleResponse50 1).completedStates.length = 1 ∧
    (handleMessageResponse sampleStore sampleResponse50 1).progressPercent ≠
      100 * ((handleMessageResponse sampleStore sampleResponse50 1).completedStates.length : Int) /
        (VISIBLE_STATES.length : Int) ∧
    (handleMessageResponse sampleStore sampleResponse50 1).progressPercent ≠
      100 * ((handleMessageResponse sampleStore sampleResponse50 1).completedStates.length : Int) /
        (claimedTraversalOrder.length : Int) ∧
    (handleMessageResponse sampleStore sampleResponse50 1).progressPercent ≠
      100 * ((handleMessageResponse sampleStore sampleResponse50 1).completedStates.length : Int) /
        (FNOL_STATES.length : Int) := by
  decide

/-- C1 amended: on every store update by handleMessageResponse or
handleSessionResponse, progressPercent is set directly to the server
response's progress.percent; it does not depend on the previous store
state, in particular it is not derived from its completedStates, and
nothing enforces monotonicity. -/
theorem progressPercent_copied_from_response (s s' : FNOLStoreState)
    (r : FNOLMessageResponse) (q : FNOLSessionResponse) (n n' : Nat) :
    (handleMessageResponse s r n).progressPercent = r.progress.percent ∧
    (handleMessageResponse s r n).progressPercent =
      (handleMessageResponse s' r n').progressPercent ∧
    (handleSessionResponse s q n).progressPercent = q.progress.percent ∧
    (handleSessionResponse s q n).progressPercent =
      (handleSessionResponse s' q n').progressPercent :=
  ⟨rfl, rfl, rfl, rfl⟩

/-! ## Claim C2: state list and traversal order -/

/-- C2 counterexample: LOSS_MODULE and TRIAGE are states of the machine
but the traversal order used by the progress bar (VISIBLE_STATES) omits
them, so that order does not list the eleven claimed states. -/
theorem traversal_order_counterexample :
    "LOSS_MODULE" ∈ FNOL_STATES ∧ "TRIAGE" ∈ FNOL_STATES ∧
    "LOSS_MODULE" ∉ VISIBLE_STATES ∧ "TRIAGE" ∉ VISIBLE_STATES ∧
    VISIBLE_STATES ≠ claimedTraversalOrder := by
  decide

/-- C2 amended: the machine's states are exactly the eleven claimed
states in the claimed order followed by the parallel terminal state
HANDOFF_ESCALATION; the progress-bar traversal order lists a
subsequence of them in the same relative order, omitting LOSS_MODULE,
TRIAGE and HANDOFF_ESCALATION. -/
theorem fnol_states_exact_order :
    FNOL_STATES = claimedTraversalOrder ++ ["HANDOFF_ESCALATION"] ∧
    VISIBLE_STATES = FNOL_STATES.filter
      (fun s => !(["LOSS_MODULE", "TRIAGE", "HANDOFF_ESCALATION"].contains s)) ∧
    VISIBLE_STATES.Sublist FNOL_STATES := by
  refine ⟨by decide, by decide, ?_⟩
  rw [show VISIBLE_STATES = FNOL_STATES.filter
      (fun s => !(["LOSS_MODULE", "TRIAGE", "HANDOFF_ESCALATION"].contains s)) by decide]
  exact List.filter_sublist _

/-! ## Claim C4: resume idempotence -/

/-- C4 counterexample: two resumeSession calls for the same thread with
the identical server response, with no advance in between, produce
different store snapshots (the rebuilt assistant message carries the
clock in its id and timestamp), and a resume call mutates the store
rather than only returning the snapshot. -/
theorem resume_not_byte_identical_counterexample :
    resumeSessionOk sampleStore sampleSessionResponse 1 ≠
      resumeSessionOk sampleStore sampleSessionResponse 2 ∧
    resumeSessionOk sampleStore sampleSessionResponse 1 ≠ sampleStore := by
  decide

/-- C4 amended: resumeSession derives every session-machine field
(thread id, draft id, current state, completed states, progress,
pending-input descriptor, active flag) from the server response alone,
so repeated resumes with the same response agree on all of them; but it
rewrites the store (replacing the message list with a single freshly
clocked assistant message), so whole snapshots are not byte-identical
across calls. -/
theorem resume_core_fields_from_response (s s' : FNOLStoreState)
    (r : FNOLSessionResponse) (n n' : Nat) :
    (resumeSessionOk s r n).threadId = some r.thread_id ∧
    (resumeSessionOk s r n).claimDraftId = some r.claim_draft_id ∧
    (resumeSessionOk s r n).currentState = r.current_state ∧
    (resumeSessionOk s r n).completedStates = r.progress.completed ∧
    (resumeSessionOk s r n).progressPercent = r.progress.percent ∧
    (resumeSessionOk s r n).isSessionActive = true ∧
    (resumeSessionOk s r n).inputType = (resumeSessionOk s' r n').inputType ∧
    (resumeSessionOk s r n).inputOptions = (resumeSessionOk s' r n').inputOptions ∧
    (resumeSessionOk s r n).messages.map Message.content = [r.message] :=
  ⟨rfl, rfl, rfl, rfl, rfl, rfl, rfl, rfl, rfl⟩

/-! ## Claim C6: pending-input descriptor -/

/-- C6: on every store transition the pending-input descriptor (the
inputType modality and the option set) is recomputed from the response
for the new state, with the text fallback for an absent modality, and
never carried over stale from the previous state: its value does not
depend on the previous store state. -/
theorem pending_input_recomputed (s s' : FNOLStoreState)
    (r : FNOLMessageResponse) (q : FNOLSessionResponse) (n n' : Nat) :
    (handleMessageResponse s r n).inputType = orDefaultStr r.input_type "text" ∧
    (handleMessageResponse s r n).inputOptions = r.options ∧
    (handleMessageResponse s r n).inputType = (handleMessageResponse s' r n').inputType ∧
    (handleMessageResponse s r n).inputOptions = (handleMessageResponse s' r n').inputOptions ∧
    (handleSessionResponse s q n).inputType = orDefaultStr q.input_type "text" ∧
    (handleSessionResponse s q n).inputOptions = q.options ∧
    (handleSessionResponse s q n).inputType = (handleSessionResponse s' q n').inputType ∧
    (handleSessionResponse s q n).inputOptions = (handleSessionResponse s' q n').inputOptions :=
  ⟨rfl, rfl, rfl, rfl, rfl, rfl, rfl, rfl⟩

/-! ## Claim C5: failed validation leaves the session unchanged -/

/-- C5 counterexample: a sendMessage round whose response carries
validation errors can nevertheless advance the state and grow
completedStates, because the store copies current_state and progress
verbatim from the response without checking the error list. -/
theorem advance_validation_failure_counterexample :
    sampleFailingAdvanceResponse.validation_errors ≠ [] ∧
    (sendMessageOk sampleStore "maybe" sampleFailingAdvanceResponse 1 2).currentState ≠
      sampleStore.currentState ∧
    (sendMessageOk sampleStore "maybe" sampleFailingAdvanceResponse 1 2).completedStates ≠
      sampleStore.completedStates := by
  decide

/-- C5 amended: the store itself never validates; it copies
current_state, completed and percent verbatim from the response.
Whenever a failing-validation response echoes the prior state (as the
backend contract prescribes on failure), the store's currentState,
completedStates and progressPercent are unchanged, the draft and thread
ids are untouched, and the response's validation errors are attached in
order. -/
theorem advance_validation_echo_preserves_state (s : FNOLStoreState)
    (m : String) (r : FNOLMessageResponse) (n n' : Nat)
    (hs : r.current_state = s.currentState)
    (hc : r.progress.completed = s.completedStates)
    (hp : r.progress.percent = s.progressPercent) :
    (sendMessageOk s m r n n').currentState = s.currentState ∧
    (sendMessageOk s m r n n').completedStates = s.completedStates ∧
    (sendMessageOk s m r n n').progressPercent = s.progressPercent ∧
    (sendMessageOk s m r n n').claimDraftId = s.claimDraftId ∧
    (sendMessageOk s m r n n').threadId = s.threadId ∧
    (sendMessageOk s m r n n').validationErrors = r.validation_errors :=
  ⟨hs, hc, hp, rfl, rfl, rfl⟩

/-- C5 witness: the echoing failure response on the sample store. -/
theorem advance_validation_echo_preserves_state_witness :
    (sampleEchoResponse.current_state = sampleStore.currentState ∧
      sampleEchoResponse.progress.completed = sampleStore.completedStates ∧
      sampleEchoResponse.progress.percent = sampleStore.progressPercent) ∧
    ((sendMessageOk sampleStore "maybe" sampleEchoResponse 1 2).currentState =
        sampleStore.currentState ∧
      (sendMessageOk sampleStore "maybe" sampleEchoResponse 1 2).completedStates =
        sampleStore.completedStates ∧
      (sendMessageOk sampleStore "maybe" sampleEchoResponse 1 2).progressPercent =
        sampleStore.progressPercent ∧
      (sendMessageOk sampleStore "maybe" sampleEchoResponse 1 2).claimDraftId =
        sampleStore.claimDraftId ∧
      (sendMessageOk sampleStore "maybe" sampleEchoResponse 1 2).threadId =
        sampleStore.threadId ∧
      (sendMessageOk sampleStore "maybe" sampleEchoResponse 1 2).validationErrors =
        sampleEchoResponse.validation_errors) :=
  ⟨⟨by decide, by decide, by decide⟩,
    advance_validation_echo_preserves_state sampleStore "maybe" sampleEchoResponse 1 2
      (by decide) (by decide) (by decide)⟩

/-! ## Claim C3: damage-evidence gating -/

/-- C3: after an upload during the document-upload stage, the flow
moves on to the conversation stage exactly when the updated document
list contains an incident_photos document; and the required-documents
check of the upload panel reduces to the presence of incident_photos,
so a missing optional document type (police_report, repair_estimate,
invoice) never blocks. -/
theorem damage_evidence_gating (docs : List DocumentItem) (resp : DocumentItem) :
    (((uploadDocumentUpdate docs FlowStage.document_upload resp).2 =
        FlowStage.conversation) ↔
      (docs ++ [resp]).any (fun d => d.doc_type == "incident_photos") = true) ∧
    hasRequiredDocs docs = docs.any (fun d => d.doc_type == "incident_photos") := by
  constructor
  · by_cases h : (docs ++ [resp]).any (fun d => d.doc_type == "incident_photos") = true
    · simp [uploadDocumentUpdate, h]
    · simp [uploadDocumentUpdate, h]
  · simp [hasRequiredDocs, DOC_TYPES, isDocTypeUploaded, List.filter, List.all]

/-! ## Claim C7: flow-settings bounds -/

/-- C7 counterexample: the flow-settings editor accepts a typed
confidence threshold of 2 and a typed auto-approval limit of -100 (the
HTML min/max attributes do not constrain typed values and the change
handlers do not clamp), and handleSaveSettings saves them verbatim, so
a saved confidence_threshold need not lie in the unit interval and a
saved auto_approval_limit can be negative. -/
theorem flow_settings_bounds_counterexample :
    (handleSaveSettingsPayload
        (onConfidenceThresholdChange defaultFlowSettings 2)).confidence_threshold = 2 ∧
    ¬ (handleSaveSettingsPayload
        (onConfidenceThresholdChange defaultFlowSettings 2)).confidence_threshold ≤ 1 ∧
    (handleSaveSettingsPayload
        (onAutoApprovalLimitChange defaultFlowSettings (-100))).auto_approval_limit = -100 ∧
    ¬ 0 ≤ (handleSaveSettingsPayload
        (onAutoApprovalLimitChange defaultFlowSettings (-100))).auto_approval_limit := by
  refine ⟨rfl, by norm_num [handleSaveSettingsPayload, onConfidenceThresholdChange], rfl,
    by norm_num [handleSaveSettingsPayload, onAutoApprovalLimitChange]⟩

/-- C7 amended: the editor's change handlers store the parsed numbers
unchanged and the save handler sends them verbatim, so in-range edits
(confidence in the unit interval, non-negative limit) are saved exactly
and stay in range, and the defaults 0.7 and 5000 are in range; but
nothing rejects out-of-range typed values. -/
theorem flow_settings_saved_verbatim (s : FlowSettings) (c : ℚ) (a : ℤ)
    (hc0 : 0 ≤ c) (hc1 : c ≤ 1) (ha : 0 ≤ a) :
    (handleSaveSettingsPayload
        (onAutoApprovalLimitChange (onConfidenceThresholdChange s c) a)).confidence_threshold = c ∧
    (handleSaveSettingsPayload
        (onAutoApprovalLimitChange (onConfidenceThresholdChange s c) a)).auto_approval_limit = (a : ℚ) ∧
    0 ≤ (handleSaveSettingsPayload
        (onAutoApprovalLimitChange (onConfidenceThresholdChange s c) a)).confidence_threshold ∧
    (handleSaveSettingsPayload
        (onAutoApprovalLimitChange (onConfidenceThresholdChange s c) a)).confidence_threshold ≤ 1 ∧
    0 ≤ (handleSaveSettingsPayload
        (onAutoApprovalLimitChange (onConfidenceThresholdChange s c) a)).auto_approval_limit ∧
    0 ≤ defaultFlowSettings.confidence_threshold ∧
    defaultFlowSettings.confidence_threshold ≤ 1 ∧
    0 ≤ defaultFlowSettings.auto_approval_limit := by
  refine ⟨rfl, rfl, hc0, hc1, (by exact_mod_cast ha : (0 : ℚ) ≤ ((a : ℤ) : ℚ)),
    by norm_num [defaultFlowSettings],
    by norm_num [defaultFlowSettings], by norm_num [defaultFlowSettings]⟩

/-- C7 witness: an in-range edit (confidence one half, limit 1000). -/
theorem flow_settings_saved_verbatim_witness :
    ((0 : ℚ) ≤ 1/2 ∧ (1/2 : ℚ) ≤ 1 ∧ (0 : ℤ) ≤ 1000) ∧
    ((handleSaveSettingsPayload
        (onAutoApprovalLimitChange (onConfidenceThresholdChange defaultFlowSettings (1/2)) 1000)).confidence_threshold = 1/2 ∧
      (handleSaveSettingsPayload
        (onAutoApprovalLimitChange (onConfidenceThresholdChange defaultFlowSettings (1/2)) 1000)).auto_approval_limit = ((1000 : ℤ) : ℚ) ∧
      0 ≤ (handleSaveSettingsPayload
        (onAutoApprovalLimitChange (onConfidenceThresholdChange defaultFlowSettings (1/2)) 1000)).confidence_threshold ∧
      (handleSaveSettingsPayload
        (onAutoApprovalLimitChange (onConfidenceThresholdChange defaultFlowSettings (1/2)) 1000)).confidence_threshold ≤ 1 ∧
      0 ≤ (handleSaveSettingsPayload
        (onAutoApprovalLimitChange (onConfidenceThresholdChange defaultFlowSettings (1/2)) 1000)).auto_approval_limit ∧
      0 ≤ defaultFlowSettings.confidence_threshold ∧
      defaultFlowSettings.confidence_threshold ≤ 1 ∧
      0 ≤ defaultFlowSettings.auto_approval_limit) :=
  ⟨⟨by norm_num, by norm_num, by norm_num⟩,
    flow_settings_saved_verbatim defaultFlowSettings (1/2) 1000
      (by norm_num) (by norm_num) (by norm_num)⟩

/-! ## Claim C8: payout floor -/

/-- Sequential exclusion application leaves exactly the gross-net
difference in the recorded adjustments: the final remaining amount is
the initial amount minus the sum of the applied adjustments. -/
theorem applyExclusions_remaining :
    ∀ (rules : List ExclusionRule) (rem : ℚ),
      (applyExclusions rem rules).1 =
        rem - ((applyExclusions rem rules).2.map ExclusionAdjustment.amount).sum := by
  intro rules
  induction rules with
  | nil => intro rem; simp [applyExclusions]
  | cons r rs ih =>
      intro rem
      cases r with
      | fixedAmount name amount =>
          simp only [applyExclusions, List.map_cons, List.sum_cons]
          rw [ih]
          ring
      | percentOfRemaining name pct =>
          simp only [applyExclusions, List.map_cons, List.sum_cons]
          rw [ih]
          ring

/-- C8: every PayoutBreakdown the engine produces satisfies
net_payout = max 0 (gross_loss_amount - deductible_applied - sum of the
exclusion adjustments), hence is never negative; the engine reproduces
the CaseDetailPage case-packet figures (estimated damage 8500,
deductible 500, no exclusions, payout 8000). -/
theorem net_payout_floor (gross deductible : ℚ) (rules : List ExclusionRule)
    (thr : Option ℚ) (lim : ℚ) :
    (calculate gross deductible rules thr lim).net_payout =
      max 0 ((calculate gross deductible rules thr lim).gross_loss_amount -
        (calculate gross deductible rules thr lim).deductible_applied -
        ((calculate gross deductible rules thr lim).exclusion_adjustments.map
          ExclusionAdjustment.amount).sum) ∧
    0 ≤ (calculate gross deductible rules thr lim).net_payout ∧
    (calculate mockEstimatedDamage mockDeductibleApplied [] thr lim).net_payout =
      mockPayoutAmount := by
  refine ⟨?_, le_max_left _ _, ?_⟩
  · show max 0 (applyExclusions (gross - deductible) rules).1 =
      max 0 (gross - deductible -
        ((applyExclusions (gross - deductible) rules).2.map ExclusionAdjustment.amount).sum)
    rw [applyExclusions_remaining]
  · norm_num [calculate, applyExclusions, mockEstimatedDamage,
      mockDeductibleApplied, mockPayoutAmount]

/-! ## Claim C9: sanitizeHtml -/

/-- A list is a Boolean prefix of itself followed by anything. -/
theorem isPrefixOf_append_self (p rest : List Char) :
    p.isPrefixOf (p ++ rest) = true := by
  induction p with
  | nil => simp [List.isPrefixOf]
  | cons a as ih => simp [List.isPrefixOf, ih]

/-- No character produced by escapeChar is one of the escaped
non-ampersand characters. -/
theorem escapeChar_mem_safe (c d : Char) (hd : d ∈ escapeChar c) :
    d ∉ dangerousNonAmp := by
  unfold escapeChar at hd
  split_ifs at hd with h1 h2 h3 h4 h5 h6
  · exact (by decide : ∀ x ∈ "&amp;".data, x ∉ dangerousNonAmp) d hd
  · exact (by decide : ∀ x ∈ "&lt;".data, x ∉ dangerousNonAmp) d hd
  · exact (by decide : ∀ x ∈ "&gt;".data, x ∉ dangerousNonAmp) d hd
  · exact (by decide : ∀ x ∈ "&quot;".data, x ∉ dangerousNonAmp) d hd
  · exact (by decide : ∀ x ∈ "&#x27;".data, x ∉ dangerousNonAmp) d hd
  · exact (by decide : ∀ x ∈ "&#x2F;".data, x ∉ dangerousNonAmp) d hd
  · rw [List.mem_singleton] at hd
    subst hd
    intro hmem
    simp only [dangerousNonAmp, List.mem_cons, List.not_mem_nil, or_false] at hmem
    rcases hmem with h | h | h | h | h
    · exact h2 h
    · exact h3 h
    · exact h4 h
    · exact h5 h
    · exact h6 h

/-- Prepending one escapeChar block preserves the no-raw-ampersand
invariant. -/
theorem ampOk_escapeChar (c : Char) (rest : List Char)
    (h : ampOk rest = true) : ampOk (escapeChar c ++ rest) = true := by
  unfold escapeChar
  split_ifs with h1 h2 h3 h4 h5 h6
  · simp [ampOk, entityTails, List.isPrefixOf, isPrefixOf_append_self, h]
  · simp [ampOk, entityTails, List.isPrefixOf, isPrefixOf_append_self, h]
  · simp [ampOk, entityTails, List.isPrefixOf, isPrefixOf_append_self, h]
  · simp [ampOk, entityTails, List.isPrefixOf, isPrefixOf_append_self, h]
  · simp [ampOk, entityTails, List.isPrefixOf, isPrefixOf_append_self, h]
  · simp [ampOk, entityTails, List.isPrefixOf, isPrefixOf_append_self, h]
  · simp [ampOk, h, h1]

/-- C9: sanitizeHtml output never contains a raw <, >, double quote,
apostrophe or slash; every ampersand in the output starts one of the
six entities of the table; and every character outside the escaped set
passes through unchanged. -/
theorem sanitizeHtml_safe (s : String) :
    (∀ c ∈ (sanitizeHtml s).data, c ∉ dangerousNonAmp) ∧
    ampOk (sanitizeHtml s).data = true ∧
    (∀ c : Char, c ∉ '&' :: dangerousNonAmp → escapeChar c = [c]) := by
  refine ⟨?_, ?_, ?_⟩
  · show ∀ c ∈ s.data.flatMap escapeChar, c ∉ dangerousNonAmp
    induction s.data with
    | nil => simp
    | cons a l ih =>
        intro c hc
        rw [List.flatMap_cons, List.mem_append] at hc
        rcases hc with hc | hc
        · exact escapeChar_mem_safe a c hc
        · exact ih c hc
  · show ampOk (s.data.flatMap escapeChar) = true
    induction s.data with
    | nil => rfl
    | cons a l ih =>
        rw [List.flatMap_cons]
        exact ampOk_escapeChar a _ ih
  · intro c hc
    unfold escapeChar
    split_ifs with h1 h2 h3 h4 h5 h6
    · exact absurd (by rw [h1]; exact List.mem_cons_self _ _) hc
    · exact absurd (by rw [h2]; decide) hc
    · exact absurd (by rw [h3]; decide) hc
    · exact absurd (by rw [h4]; decide) hc
    · exact absurd (by rw [h5]; decide) hc
    · exact absurd (by rw [h6]; decide) hc
    · rfl

/-- C9 witness: the theorem evaluated on a concrete attack string. -/
theorem sanitizeHtml_safe_witness :
    ('a' ∉ '&' :: dangerousNonAmp) ∧
    escapeChar 'a' = ['a'] ∧
    ampOk (sanitizeHtml "<script>alert('x & y')<\x2Fscript>").data = true :=
  ⟨by decide, (sanitizeHtml_safe "x").2.2 'a' (by decide),
    (sanitizeHtml_safe "<script>alert('x & y')<\x2Fscript>").2.1⟩

/-! ## Claim C10: sanitizeUrl -/

/-- C10: for every URL parser behaviour and every input string,
sanitizeUrl returns none or the href of a parse whose protocol is
exactly http: or https:; a failed parse yields none, and a parse with
any other protocol yields none.  The function is total, the embedding
of the source's catch-all try/catch returning null. -/
theorem sanitizeUrl_spec (parseURL : String → Option URLParts) (url : String) :
    (sanitizeUrl parseURL url = none ∨
      ∃ u, parseURL url = some u ∧
        (u.protocol = "http:" ∨ u.protocol = "https:") ∧
        sanitizeUrl parseURL url = some u.href) ∧
    (parseURL url = none → sanitizeUrl parseURL url = none) ∧
    (∀ u, parseURL url = some u → u.protocol ≠ "http:" → u.protocol ≠ "https:" →
      sanitizeUrl parseURL url = none) := by
  refine ⟨?_, ?_, ?_⟩
  · unfold sanitizeUrl
    cases h : parseURL url with
    | none => exact Or.inl rfl
    | some u =>
        by_cases h1 : u.protocol = "http:"
        · exact Or.inr ⟨u, rfl, Or.inl h1, by simp [h1]⟩
        · by_cases h2 : u.protocol = "https:"
          · exact Or.inr ⟨u, rfl, Or.inr h2, by simp [h2]⟩
          · exact Or.inl (by simp [List.contains, h1, h2])
  · intro h; unfold sanitizeUrl; rw [h]
  · intro u hu h1 h2
    unfold sanitizeUrl
    rw [hu]
    simp [List.contains, h1, h2]

/-- A concrete parser behaviour covering an allowed parse, a
javascript: parse and a failed parse, for evaluating sanitizeUrl. -/
def demoParseURL : String → Option URLParts
  | "https://example.com/a" =>
      some { protocol := "https:", href := "https://example.com/a" }
  | "javascript:alert(1)" =>
      some { protocol := "javascript:", href := "javascript:alert(1)" }
  | _ => none

/-- C10 witness: the theorem applied at the demo parser, showing the
javascript: parse and the failed parse both sanitize to none while the
https parse survives. -/
theorem sanitizeUrl_spec_witness :
    sanitizeUrl demoParseURL "javascript:alert(1)" = none ∧
    sanitizeUrl demoParseURL "not a url" = none ∧
    sanitizeUrl demoParseURL "https://example.com/a" = some "https://example.com/a" :=
  ⟨(sanitizeUrl_spec demoParseURL "javascript:alert(1)").2.2
      { protocol := "javascript:", href := "javascript:alert(1)" }
      rfl (by decide) (by decide),
    (sanitizeUrl_spec demoParseURL "not a url").2.1 rfl,
    by decide⟩

end Claimbot
